import Mathlib

/- Verification of the image-normalization and example-generation core of
tensorflow_datasets/image/sun.py.

Modelling conventions:
  * a numpy ndarray is its shape tuple plus the flat row-major sample
    buffer (`NDArray`); uint8-ness is a predicate on the samples;
  * the read-once file object of an archive entry is the byte list it
    yields;
  * an io.BytesIO object is a byte list with a cursor (`Buffer`);
  * Python exceptions are the `Except PyErr` monad, with ValueError kept
    apart from codec-library errors;
  * the external codec libraries (cv2.imdecode, PIL open/convert/save) are
    parameters of the embedded functions, so every theorem states exactly
    which contract of the external codec it relies on. -/

/-- Model of a numpy ndarray: the shape tuple together with the sample
buffer in row-major order.  Samples are natural numbers; the uint8 range
is tracked by predicates on `data`. -/
structure NDArray where
  shape : List Nat
  data : List Nat
deriving DecidableEq

/-- Python exceptions raised by the embedded code, split by exception
class: numpy reshape and the explicit shape check raise ValueError, while
a failing codec library raises its own error classes (PIL's
UnidentifiedImageError, OSError, ...). -/
inductive PyErr where
  | valueError (msg : String)
  | codecError (msg : String)
deriving DecidableEq

deriving instance DecidableEq for Except

/-- Model of numpy ndarray.reshape: succeeds exactly when the element count
of the old shape equals the element count of the requested shape, keeping
the sample buffer unchanged; otherwise numpy raises a ValueError. -/
def reshape (a : NDArray) (newshape : List Nat) : Except PyErr NDArray :=
  if a.shape.prod = newshape.prod then
    Except.ok { shape := newshape, data := a.data }
  else
    Except.error (PyErr.valueError "cannot reshape array")

/-- Shape-normalization step of _decode_image (sun.py lines 84-86): a
rank-4 grid (a single-frame GIF decoded with a leading frame dimension) is
reshaped to shape[1:], dropping the leading dimension; any other rank
passes through unchanged. -/
def normalizeShape (image : NDArray) : Except PyErr NDArray :=
  if image.shape.length = 4 then
    reshape image image.shape.tail
  else
    Except.ok image

/-- Embedding of _decode_image (sun.py lines 56-88): read the bytes, try
the primary codec (cv2.imdecode requesting 3-channel color); if it returns
the None sentinel, fall back to PIL open plus convert to RGB (which may
raise), then apply the rank-4 shape normalization.  The two external
codecs are parameters. -/
def _decode_image (cv2_imdecode : List Nat → Option NDArray)
    (pil_open_rgb : List Nat → Except PyErr NDArray)
    (buf : List Nat) : Except PyErr NDArray :=
  match (match cv2_imdecode buf with
         | some image => Except.ok image
         | none => pil_open_rgb buf) with
  | Except.error e => Except.error e
  | Except.ok image => normalizeShape image

/-- Message of the ValueError raised by _encode_image on a non-rank-3
input (sun.py line 105). -/
def shapeErrorMsg : String := "The image should have shape (height, width, channels)"

/-- Model of io.BytesIO: the byte content together with the cursor. -/
structure Buffer where
  data : List Nat
  pos : Nat
deriving DecidableEq

/-- BytesIO write at the current cursor: overwrite from the cursor on,
zero-filling any gap past the current end, and advance the cursor. -/
def Buffer.write (b : Buffer) (bytes : List Nat) : Buffer :=
  { data := b.data.take b.pos ++ List.replicate (b.pos - b.data.length) 0 ++
      bytes ++ b.data.drop (b.pos + bytes.length),
    pos := b.pos + bytes.length }

/-- BytesIO seek(0): reset the cursor to the start. -/
def Buffer.seek0 (b : Buffer) : Buffer := { b with pos := 0 }

/-- Embedding of _encode_image (sun.py lines 91-119): reject grids whose
rank is not 3; default the format to JPEG; drop a trailing singleton
channel dimension via reshape to shape[:-1]; write the codec's encoded
bytes into the supplied buffer or a fresh BytesIO; seek to 0 and return
the buffer.  The external codec (PIL fromarray + save, which may raise) is
the `pil_save` parameter producing the encoded bytes. -/
def _encode_image (pil_save : NDArray → String → Except PyErr (List Nat))
    (image : NDArray) (image_format : Option String) (fobj : Option Buffer) :
    Except PyErr Buffer :=
  if image.shape.length ≠ 3 then
    Except.error (PyErr.valueError shapeErrorMsg)
  else
    let fmt := image_format.getD "JPEG"
    match (if image.shape.getLast? = some 1 then
             reshape image image.shape.dropLast
           else
             Except.ok image) with
    | Except.error e => Except.error e
    | Except.ok squeezed =>
      let buf := fobj.getD { data := [], pos := 0 }
      match pil_save squeezed fmt with
      | Except.error e => Except.error e
      | Except.ok bytes => Except.ok (Buffer.seek0 (buf.write bytes))

/-- Embedding of _process_image_file (sun.py lines 122-128): decode the
entry's bytes, then re-encode as JPEG. -/
def _process_image_file (cv2_imdecode : List Nat → Option NDArray)
    (pil_open_rgb : List Nat → Except PyErr NDArray)
    (pil_save : NDArray → String → Except PyErr (List Nat))
    (fobj : List Nat) : Except PyErr Buffer :=
  match _decode_image cv2_imdecode pil_open_rgb fobj with
  | Except.error e => Except.error e
  | Except.ok image => _encode_image pil_save image (some "JPEG") none

/-- Python strings are sequences of code points; the path handling of the
generator is modelled on lists of characters so that every operation is
structurally recursive and computable. -/
abbrev PyStr := List Char

/-- Python str.endswith for a single candidate: the candidate is a suffix
of the string. -/
def pyEndsWith (s t : PyStr) : Bool := t.isSuffixOf s

/-- Python str.split with a one-character separator: splits on every
occurrence, keeping empty pieces, and maps the empty string to [""]. -/
def pySplit (sep : Char) : PyStr → List PyStr
  | [] => [[]]
  | c :: rest =>
    match pySplit sep rest with
    | [] => [[c]]
    | s :: ss => if c = sep then [] :: s :: ss else (c :: s) :: ss

/-- Python sep.join for a one-character separator. -/
def pyJoin (sep : Char) (parts : List PyStr) : PyStr := List.intercalate [sep] parts

/-- One record yielded by the generator. -/
structure Record where
  file_name : PyStr
  image : Buffer
  label : PyStr
deriving DecidableEq

/-- Length of the archive-root directory name stripped from every path
(sun.py line 167). -/
def prefix_len : Nat := "SUN397".toList.length

/-- Embedding of Sun397._generate_examples (sun.py lines 166-181): walk
the archive entries in order; entries whose path does not end in ".jpg"
are skipped; for a matching entry, file_name is the path with the first
prefix_len characters removed and label joins all its "/"-separated
segments but the last; the entry's bytes are processed into a JPEG
buffer.  A Python generator stops at the first uncaught exception, having
already yielded the earlier records: the result is the yielded records
together with the exception that aborted the pass, if any. -/
def _generate_examples (cv2_imdecode : List Nat → Option NDArray)
    (pil_open_rgb : List Nat → Except PyErr NDArray)
    (pil_save : NDArray → String → Except PyErr (List Nat)) :
    List (PyStr × List Nat) → List Record × Option PyErr
  | [] => ([], none)
  | (filepath, fobj) :: rest =>
    if pyEndsWith filepath ".jpg".toList then
      let filename := filepath.drop prefix_len
      let label := pyJoin '/' ((pySplit '/' filename).dropLast)
      match _process_image_file cv2_imdecode pil_open_rgb pil_save fobj with
      | Except.error e => ([], some e)
      | Except.ok image =>
        let out := _generate_examples cv2_imdecode pil_open_rgb pil_save rest
        ({ file_name := filename, image := image, label := label } :: out.1, out.2)
    else
      _generate_examples cv2_imdecode pil_open_rgb pil_save rest

/- ------------------------------------------------------------------ -/
/- Helper lemmas                                                      -/
/- ------------------------------------------------------------------ -/

lemma exists_four_of_length_eq (l : List Nat) (h : l.length = 4) :
    ∃ a b c d, l = [a, b, c, d] := by
  rcases l with _ | ⟨a, _ | ⟨b, _ | ⟨c, _ | ⟨d, _ | ⟨e, l⟩⟩⟩⟩⟩ <;> simp_all

lemma prod_dropLast_of_getLast_one (l : List Nat) (h : l.getLast? = some 1) :
    l.prod = l.dropLast.prod := by
  rcases l.eq_nil_or_concat with rfl | ⟨xs, x, rfl⟩
  · simp at h
  · rw [List.concat_eq_append] at *
    rw [List.getLast?_concat] at h
    simp_all

/-- C8: the 4-D-to-3-D shape normalization is a no-op on a grid that is
already rank 3 (the squeeze only triggers on rank 4), so applying it twice
equals applying it once. -/
theorem normalizeShape_noop_rank3 (image : NDArray) (h : image.shape.length = 3) :
    normalizeShape image = Except.ok image ∧
    (normalizeShape image >>= normalizeShape) = normalizeShape image := by
  have h4 : image.shape.length ≠ 4 := by omega
  constructor
  · simp [normalizeShape, h4]
  · simp [normalizeShape, h4, Bind.bind, Except.bind]

/-- Witness for normalizeShape_noop_rank3 at a concrete rank-3 grid. -/
theorem normalizeShape_noop_rank3_witness :
    normalizeShape { shape := [2, 2, 3], data := [] } =
      Except.ok { shape := [2, 2, 3], data := [] } :=
  (normalizeShape_noop_rank3 { shape := [2, 2, 3], data := [] } (by decide)).1

/-- C7 (amended): in _decode_image, a rank-4 decoded grid with leading
frame dimension 1 has the leading dimension dropped; with a leading frame
dimension other than 1 the reshape raises a ValueError provided the grid
holds at least one sample (the product of the remaining dimensions is
nonzero) — numpy's reshape only compares element counts, so a degenerate
empty rank-4 grid reshapes successfully whatever its frame count. -/
theorem decode_image_multiframe (cv2_imdecode : List Nat → Option NDArray)
    (pil_open_rgb : List Nat → Except PyErr NDArray) (buf : List Nat)
    (img : NDArray) (hcv : cv2_imdecode buf = some img)
    (h4 : img.shape.length = 4) :
    (img.shape.head? = some 1 →
      _decode_image cv2_imdecode pil_open_rgb buf =
        Except.ok { shape := img.shape.tail, data := img.data }) ∧
    (img.shape.head? ≠ some 1 → img.shape.tail.prod ≠ 0 →
      _decode_image cv2_imdecode pil_open_rgb buf =
        Except.error (PyErr.valueError "cannot reshape array")) := by
  obtain ⟨a, b, c, d, hs⟩ := exists_four_of_length_eq img.shape h4
  constructor
  · intro h1
    rw [hs] at h1
    simp only [List.head?] at h1
    injection h1 with h1
    subst h1
    simp [_decode_image, hcv, normalizeShape, reshape, hs]
  · intro hne hprod
    have ha : a ≠ 1 := fun h => hne (by rw [hs, h]; rfl)
    rw [hs, List.tail_cons] at hprod
    have hmul : a * ([b, c, d] : List Nat).prod ≠ ([b, c, d] : List Nat).prod := by
      intro h
      exact ha (Nat.eq_of_mul_eq_mul_right (Nat.pos_of_ne_zero hprod)
        (by simpa using h))
    simp only [_decode_image, hcv]
    simp only [normalizeShape, hs, List.length_cons, List.length_nil]
    norm_num
    rw [reshape, if_neg]
    rw [hs]
    simpa using hmul

/-- Primary codec used in the counterexample below: it decodes anything to
an empty rank-4 grid with two frames. -/
def cePrimary : List Nat → Option NDArray :=
  fun _ => some { shape := [2, 0, 3, 3], data := [] }

/-- Fallback codec used in the counterexample below (never reached). -/
def ceFallback : List Nat → Except PyErr NDArray :=
  fun _ => Except.error (PyErr.codecError "cannot identify image file")

/-- Counterexample to C7 as stated: the decoded grid has rank 4 and a
leading frame dimension of 2, yet _decode_image does not fail — the
reshape to shape[1:] succeeds because both shapes describe 0 elements, and
a rank-3 grid is returned. -/
theorem decode_image_multiframe_counterexample :
    cePrimary [] = some { shape := [2, 0, 3, 3], data := [] } ∧
    ([2, 0, 3, 3] : List Nat).length = 4 ∧
    ([2, 0, 3, 3] : List Nat).head? ≠ some 1 ∧
    _decode_image cePrimary ceFallback [] =
      Except.ok { shape := [0, 3, 3], data := [] } := by
  refine ⟨rfl, rfl, by decide, rfl⟩

/-- Primary codec for the multiframe witness: a single-frame rank-4 grid. -/
def ceSingleFrame : List Nat → Option NDArray :=
  fun _ => some { shape := [1, 2, 2, 3], data := List.replicate 12 0 }

/-- Witness for decode_image_multiframe: a concrete single-frame rank-4
grid has its leading dimension dropped. -/
theorem decode_image_multiframe_witness :
    _decode_image ceSingleFrame ceFallback [] =
      Except.ok { shape := [2, 2, 3], data := List.replicate 12 0 } :=
  (decode_image_multiframe ceSingleFrame ceFallback []
    { shape := [1, 2, 2, 3], data := List.replicate 12 0 } rfl (by decide)).1 rfl

lemma decode_image_primary (cv : List Nat → Option NDArray)
    (fb : List Nat → Except PyErr NDArray) (buf : List Nat) (i : NDArray)
    (hc : cv buf = some i) : _decode_image cv fb buf = normalizeShape i := by
  unfold _decode_image
  rw [hc]

lemma decode_image_fallback (cv : List Nat → Option NDArray)
    (fb : List Nat → Except PyErr NDArray) (buf : List Nat)
    (hc : cv buf = none) :
    _decode_image cv fb buf =
      (match fb buf with
       | Except.error e => Except.error e
       | Except.ok i => normalizeShape i) := by
  unfold _decode_image
  rw [hc]

/-- C1: whenever _decode_image succeeds — via the primary codec or the
fallback — the returned grid is rank 3 with exactly 3 channels and uint8
samples, and its sample stream keeps any property of the codec outputs
(instantiate RGB with the channel-order property).  The hypotheses are the
spec's contracts for the external codecs: cv2.imdecode is called
requesting 3-channel color and may return an image with an extra leading
frame dimension; the PIL fallback converts to RGB, always a rank-3
3-channel uint8 array. -/
theorem decode_image_rank3_rgb (cv2_imdecode : List Nat → Option NDArray)
    (pil_open_rgb : List Nat → Except PyErr NDArray)
    (RGB : List Nat → Prop)
    (hcv : ∀ b img, cv2_imdecode b = some img →
      (img.shape.length = 3 ∨ img.shape.length = 4) ∧
      img.shape.getLast? = some 3 ∧ (∀ x ∈ img.data, x < 256) ∧ RGB img.data)
    (hpil : ∀ b img, pil_open_rgb b = Except.ok img →
      img.shape.length = 3 ∧ img.shape.getLast? = some 3 ∧
      (∀ x ∈ img.data, x < 256) ∧ RGB img.data)
    (buf : List Nat) (img : NDArray)
    (h : _decode_image cv2_imdecode pil_open_rgb buf = Except.ok img) :
    img.shape.length = 3 ∧ img.shape.getLast? = some 3 ∧
    (∀ x ∈ img.data, x < 256) ∧ RGB img.data := by
  cases hc : cv2_imdecode buf with
  | some i =>
    rw [decode_image_primary _ _ _ _ hc] at h
    obtain ⟨hrank, hlast, hdata, hrgb⟩ := hcv buf i hc
    rcases hrank with h3 | h4
    · have h4' : i.shape.length ≠ 4 := by omega
      unfold normalizeShape at h
      rw [if_neg h4'] at h
      injection h with h
      subst h
      exact ⟨h3, hlast, hdata, hrgb⟩
    · obtain ⟨a, b, c, d, hs⟩ := exists_four_of_length_eq i.shape h4
      unfold normalizeShape at h
      rw [if_pos h4] at h
      unfold reshape at h
      split at h
      · injection h with h
        subst h
        rw [hs] at hlast
        simp only [List.getLast?] at hlast
        refine ⟨?_, ?_, hdata, hrgb⟩
        · rw [hs]; rfl
        · rw [hs]
          simpa using hlast
      · cases h
  | none =>
    rw [decode_image_fallback _ _ _ hc] at h
    cases hp : pil_open_rgb buf with
    | error e => rw [hp] at h; cases h
    | ok i =>
      rw [hp] at h
      dsimp only at h
      obtain ⟨h3, hlast, hdata, hrgb⟩ := hpil buf i hp
      have h4' : i.shape.length ≠ 4 := by omega
      unfold normalizeShape at h
      rw [if_neg h4'] at h
      injection h with h
      subst h
      exact ⟨h3, hlast, hdata, hrgb⟩

/-- Witness primary codec: decodes anything to a 1-by-1 RGB pixel. -/
def wCv2 : List Nat → Option NDArray :=
  fun _ => some { shape := [1, 1, 3], data := [0, 0, 0] }

/-- Witness fallback codec: always raises. -/
def wPil : List Nat → Except PyErr NDArray :=
  fun _ => Except.error (PyErr.codecError "cannot identify image file")

/-- Witness primary codec that always returns the None sentinel. -/
def wCv2None : List Nat → Option NDArray := fun _ => none

/-- Witness encoder: two fixed bytes for any grid. -/
def wSave : NDArray → String → Except PyErr (List Nat) :=
  fun _ _ => Except.ok [255, 216]

/-- The buffer the witness pipeline produces for any entry. -/
def wEnc : List Nat → Buffer := fun _ => { data := [255, 216], pos := 0 }

/-- Witness for decode_image_rank3_rgb: the concrete witness codecs meet
the codec contracts and decoding succeeds on a concrete byte input. -/
theorem decode_image_rank3_rgb_witness :
    (NDArray.mk [1, 1, 3] [0, 0, 0]).shape.length = 3 ∧
    (NDArray.mk [1, 1, 3] [0, 0, 0]).shape.getLast? = some 3 ∧
    (∀ x ∈ (NDArray.mk [1, 1, 3] [0, 0, 0]).data, x < 256) ∧
    (0 + 0 = 0) :=
  decode_image_rank3_rgb wCv2 wPil (fun _ => 0 + 0 = 0)
    (by intro b img h; injection h with h; subst h
        exact ⟨Or.inl rfl, rfl, by decide, rfl⟩)
    (by intro b img h; cases h)
    [] (NDArray.mk [1, 1, 3] [0, 0, 0]) rfl

/-- The record _generate_examples yields for one matching archive entry,
given the buffer the image pipeline produces for the entry's bytes. -/
def recordFor (enc : List Nat → Buffer) (e : PyStr × List Nat) : Record :=
  { file_name := e.1.drop prefix_len,
    image := enc e.2,
    label := pyJoin '/' ((pySplit '/' (e.1.drop prefix_len)).dropLast) }

lemma generate_examples_total (cv : List Nat → Option NDArray)
    (fb : List Nat → Except PyErr NDArray)
    (sv : NDArray → String → Except PyErr (List Nat)) (enc : List Nat → Buffer)
    (henc : ∀ b, _process_image_file cv fb sv b = Except.ok (enc b))
    (archive : List (PyStr × List Nat)) :
    _generate_examples cv fb sv archive =
      ((archive.filter (fun e => pyEndsWith e.1 ".jpg".toList)).map (recordFor enc), none) := by
  induction archive with
  | nil => rfl
  | cons e rest ih =>
    obtain ⟨p, f⟩ := e
    by_cases hjpg : pyEndsWith p ['.', 'j', 'p', 'g'] = true
    · simp [_generate_examples, hjpg, henc f, ih, recordFor]
    · simp [_generate_examples, hjpg, ih]

/-- C3: with an image pipeline that succeeds on every entry, the generator
yields exactly one record per ".jpg"-suffixed entry, in archive traversal
order, and no record for any other entry: the output is the map of
recordFor over the ".jpg"-filtered archive, with no aborting exception,
and its length is the number of matching entries. -/
theorem generate_examples_filter_map (cv : List Nat → Option NDArray)
    (fb : List Nat → Except PyErr NDArray)
    (sv : NDArray → String → Except PyErr (List Nat)) (enc : List Nat → Buffer)
    (henc : ∀ b, _process_image_file cv fb sv b = Except.ok (enc b))
    (archive : List (PyStr × List Nat)) :
    _generate_examples cv fb sv archive =
      ((archive.filter (fun e => pyEndsWith e.1 ".jpg".toList)).map (recordFor enc), none) ∧
    (_generate_examples cv fb sv archive).1.length =
      (archive.filter (fun e => pyEndsWith e.1 ".jpg".toList)).length := by
  have h := generate_examples_total cv fb sv enc henc archive
  exact ⟨h, by rw [h]; simp⟩

/-- Witness for generate_examples_filter_map on a three-entry archive with
one non-matching entry. -/
theorem generate_examples_filter_map_witness :
    _generate_examples wCv2 wPil wSave
        [("SUN397/c/a/x.jpg".toList, [5]), ("SUN397/README.txt".toList, []),
         ("SUN397/c/a/y.jpg".toList, [6])] =
      (([("SUN397/c/a/x.jpg".toList, [5]), ("SUN397/README.txt".toList, []),
         ("SUN397/c/a/y.jpg".toList, [6])].filter
          (fun e => pyEndsWith e.1 ".jpg".toList)).map (recordFor wEnc), none) ∧
    (_generate_examples wCv2 wPil wSave
        [("SUN397/c/a/x.jpg".toList, [5]), ("SUN397/README.txt".toList, []),
         ("SUN397/c/a/y.jpg".toList, [6])]).1.length =
      ([("SUN397/c/a/x.jpg".toList, [5]), ("SUN397/README.txt".toList, []),
        ("SUN397/c/a/y.jpg".toList, [6])].filter
          (fun e => pyEndsWith e.1 ".jpg".toList)).length :=
  generate_examples_filter_map wCv2 wPil wSave wEnc (fun _ => rfl) _


/-- C2: a ".jpg" archive entry yields a record whose file_name is the path
with its first prefix_len (length of "SUN397") characters stripped and
whose label rejoins with "/" all "/"-separated segments of that stripped
name except the final one; in particular the claim's example path yields
label "/c/car_interior/backseat" and file_name
"/c/car_interior/backseat/sun_aenygxwhhmjtisnf.jpg". -/
theorem generate_examples_label_derivation (cv : List Nat → Option NDArray)
    (fb : List Nat → Except PyErr NDArray)
    (sv : NDArray → String → Except PyErr (List Nat)) (enc : List Nat → Buffer)
    (henc : ∀ b, _process_image_file cv fb sv b = Except.ok (enc b))
    (p : PyStr) (f : List Nat) (hjpg : pyEndsWith p ".jpg".toList = true) :
    _generate_examples cv fb sv [(p, f)] =
      ([{ file_name := p.drop "SUN397".toList.length, image := enc f,
          label := pyJoin '/'
            ((pySplit '/' (p.drop "SUN397".toList.length)).dropLast) }], none) ∧
    (∀ f0 : List Nat,
      _generate_examples cv fb sv
          [("SUN397/c/car_interior/backseat/sun_aenygxwhhmjtisnf.jpg".toList, f0)] =
        ([{ file_name := "/c/car_interior/backseat/sun_aenygxwhhmjtisnf.jpg".toList,
            image := enc f0,
            label := "/c/car_interior/backseat".toList }], none)) := by
  have hjpg' : pyEndsWith p ['.', 'j', 'p', 'g'] = true := hjpg
  constructor
  · rw [generate_examples_total cv fb sv enc henc [(p, f)]]
    simp [hjpg', recordFor, prefix_len]
  · intro f0
    rw [generate_examples_total cv fb sv enc henc
      [("SUN397/c/car_interior/backseat/sun_aenygxwhhmjtisnf.jpg".toList, f0)]]
    have hc : pyEndsWith "SUN397/c/car_interior/backseat/sun_aenygxwhhmjtisnf.jpg".toList
        ['.', 'j', 'p', 'g'] = true := by decide
    simp only [List.filter, hc, List.map, recordFor, Prod.mk.injEq, List.cons.injEq,
      Record.mk.injEq, Prod.fst, Prod.snd]
    exact ⟨⟨⟨by decide, trivial, by decide⟩, trivial⟩, trivial⟩

/-- Witness for generate_examples_label_derivation at the claim's example
path with the concrete witness codecs. -/
theorem generate_examples_label_derivation_witness :
    _generate_examples wCv2 wPil wSave
        [("SUN397/c/car_interior/backseat/sun_aenygxwhhmjtisnf.jpg".toList, [5])] =
      ([{ file_name :=
            ("SUN397/c/car_interior/backseat/sun_aenygxwhhmjtisnf.jpg".toList).drop
              "SUN397".toList.length,
          image := wEnc [5],
          label := pyJoin '/'
            ((pySplit '/'
              (("SUN397/c/car_interior/backseat/sun_aenygxwhhmjtisnf.jpg".toList).drop
                "SUN397".toList.length)).dropLast) }], none) :=
  (generate_examples_label_derivation wCv2 wPil wSave wEnc (fun _ => rfl)
    "SUN397/c/car_interior/backseat/sun_aenygxwhhmjtisnf.jpg".toList [5] (by decide)).1

/-- C10: the archive-root strip is purely positional: for any ".jpg" path
the yielded record's file_name is the path minus its first 6 characters,
whether or not those characters spell "SUN397" (witnessed by a path rooted
at "FOO123"); and a ".jpg" entry directly under the root — a single path
segment after the stripped root — is yielded with the empty label. -/
theorem generate_examples_positional_strip (cv : List Nat → Option NDArray)
    (fb : List Nat → Except PyErr NDArray)
    (sv : NDArray → String → Except PyErr (List Nat)) (enc : List Nat → Buffer)
    (henc : ∀ b, _process_image_file cv fb sv b = Except.ok (enc b)) :
    (∀ (p : PyStr) (f : List Nat), pyEndsWith p ".jpg".toList = true →
      ((_generate_examples cv fb sv [(p, f)]).1.map Record.file_name) = [p.drop 6]) ∧
    (∀ f0, _generate_examples cv fb sv [("FOO123/a/b.jpg".toList, f0)] =
      ([{ file_name := "/a/b.jpg".toList, image := enc f0,
          label := "/a".toList }], none)) ∧
    (∀ f0, _generate_examples cv fb sv [("SUN397/sun_aenygxwhhmjtisnf.jpg".toList, f0)] =
      ([{ file_name := "/sun_aenygxwhhmjtisnf.jpg".toList, image := enc f0,
          label := [] }], none)) := by
  refine ⟨?_, ?_, ?_⟩
  · intro p f hjpg
    have hjpg' : pyEndsWith p ['.', 'j', 'p', 'g'] = true := hjpg
    rw [generate_examples_total cv fb sv enc henc [(p, f)]]
    simp [hjpg', recordFor, prefix_len]
  · intro f0
    rw [generate_examples_total cv fb sv enc henc [("FOO123/a/b.jpg".toList, f0)]]
    have hc : pyEndsWith "FOO123/a/b.jpg".toList ['.', 'j', 'p', 'g'] = true := by decide
    simp only [List.filter, hc, List.map, recordFor, Prod.mk.injEq, List.cons.injEq,
      Record.mk.injEq, Prod.fst, Prod.snd]
    exact ⟨⟨⟨by decide, trivial, by decide⟩, trivial⟩, trivial⟩
  · intro f0
    rw [generate_examples_total cv fb sv enc henc
      [("SUN397/sun_aenygxwhhmjtisnf.jpg".toList, f0)]]
    have hc : pyEndsWith "SUN397/sun_aenygxwhhmjtisnf.jpg".toList
        ['.', 'j', 'p', 'g'] = true := by decide
    simp only [List.filter, hc, List.map, recordFor, Prod.mk.injEq, List.cons.injEq,
      Record.mk.injEq, Prod.fst, Prod.snd]
    exact ⟨⟨⟨by decide, trivial, by decide⟩, trivial⟩, trivial⟩

/-- Witness for generate_examples_positional_strip: the non-"SUN397" root
is stripped anyway. -/
theorem generate_examples_positional_strip_witness :
    _generate_examples wCv2 wPil wSave [("FOO123/a/b.jpg".toList, [5])] =
      ([{ file_name := "/a/b.jpg".toList, image := wEnc [5],
          label := "/a".toList }], none) :=
  (generate_examples_positional_strip wCv2 wPil wSave wEnc (fun _ => rfl)).2.1 [5]

/-- C4: a decode/encode failure on a ".jpg" entry is not caught or
skipped: when both decoders fail, _process_image_file fails with the
fallback's exception, and a failing ".jpg" entry anywhere in the archive
makes the generation pass stop there — it yields exactly the records of
the earlier entries, surfaces the exception, yields nothing for the
failing entry or any later entry, and the failure is never silently
dropped. -/
theorem generate_examples_failure_propagates (cv : List Nat → Option NDArray)
    (fb : List Nat → Except PyErr NDArray)
    (sv : NDArray → String → Except PyErr (List Nat))
    (pre : List (PyStr × List Nat)) (p : PyStr) (f : List Nat)
    (rest : List (PyStr × List Nat)) (e : PyErr)
    (hjpg : pyEndsWith p ".jpg".toList = true)
    (hfail : _process_image_file cv fb sv f = Except.error e)
    (hpre : (_generate_examples cv fb sv pre).2 = none) :
    _generate_examples cv fb sv (pre ++ (p, f) :: rest) =
      ((_generate_examples cv fb sv pre).1, some e) ∧
    (∀ (buf : List Nat) (e0 : PyErr), cv buf = none → fb buf = Except.error e0 →
      _process_image_file cv fb sv buf = Except.error e0) := by
  have hjpg' : pyEndsWith p ['.', 'j', 'p', 'g'] = true := hjpg
  constructor
  · induction pre with
    | nil =>
      simp [_generate_examples, hjpg', hfail]
    | cons q pre ih =>
      obtain ⟨qp, qf⟩ := q
      by_cases hq : pyEndsWith qp ['.', 'j', 'p', 'g'] = true
      · cases hproc : _process_image_file cv fb sv qf with
        | error e0 =>
          exfalso
          simp [_generate_examples, hq, hproc] at hpre
        | ok img =>
          have hpre' : (_generate_examples cv fb sv pre).2 = none := by
            simpa [_generate_examples, hq, hproc] using hpre
          simp [_generate_examples, hq, hproc, ih hpre']
      · have hpre' : (_generate_examples cv fb sv pre).2 = none := by
          simpa [_generate_examples, hq] using hpre
        simp [_generate_examples, hq, ih hpre']
  · intro buf e0 hcv hfb
    rw [_process_image_file, decode_image_fallback cv fb buf hcv, hfb]

/-- Witness for generate_examples_failure_propagates: both decoders fail
on the second entry, the first (non-matching) entry yields nothing, and
the pass stops with the fallback's exception. -/
theorem generate_examples_failure_propagates_witness :
    _generate_examples wCv2None wPil wSave
        ([("SUN397/README.txt".toList, [])] ++
          [("SUN397/c/a/x.jpg".toList, [9])]) =
      ((_generate_examples wCv2None wPil wSave
          [("SUN397/README.txt".toList, [])]).1,
        some (PyErr.codecError "cannot identify image file")) ∧
    (∀ (buf : List Nat) (e0 : PyErr), wCv2None buf = none →
      wPil buf = Except.error e0 →
      _process_image_file wCv2None wPil wSave buf = Except.error e0) :=
  generate_examples_failure_propagates wCv2None wPil wSave
    [("SUN397/README.txt".toList, [])] "SUN397/c/a/x.jpg".toList [9] []
    (PyErr.codecError "cannot identify image file") (by decide) rfl rfl

lemma squeeze_error_msg (image : NDArray) (e : PyErr)
    (h : (if image.shape.getLast? = some 1 then
            reshape image image.shape.dropLast
          else Except.ok image) = Except.error e) :
    e = PyErr.valueError "cannot reshape array" := by
  split at h
  · unfold reshape at h
    split at h
    · cases h
    · injection h with h
      exact h.symm
  · cases h

/-- C5: _encode_image returns the shape-validation ValueError exactly when
the input grid's rank is not 3; for every rank-3 input that error branch
is not taken.  The hypothesis records that the external codec never raises
that exact ValueError itself (PIL's own failures are distinct exception
classes and messages), which separates the shape check's error from codec
errors. -/
theorem encode_image_shape_error_iff
    (pil_save : NDArray → String → Except PyErr (List Nat))
    (image : NDArray) (image_format : Option String) (fobj : Option Buffer)
    (hsv : ∀ i f, pil_save i f ≠ Except.error (PyErr.valueError shapeErrorMsg)) :
    _encode_image pil_save image image_format fobj =
        Except.error (PyErr.valueError shapeErrorMsg) ↔
      image.shape.length ≠ 3 := by
  constructor
  · intro h
    by_contra hr3
    unfold _encode_image at h
    rw [if_neg (by omega : ¬image.shape.length ≠ 3)] at h
    dsimp only at h
    cases hsq : (if image.shape.getLast? = some 1 then
        reshape image image.shape.dropLast else Except.ok image) with
    | error e0 =>
      rw [hsq] at h
      dsimp only at h
      injection h with h
      have := squeeze_error_msg image e0 hsq
      rw [this] at h
      injection h with h
      exact absurd h (by decide)
    | ok squeezed =>
      rw [hsq] at h
      dsimp only at h
      cases hs2 : pil_save squeezed (image_format.getD "JPEG") with
      | error e1 =>
        rw [hs2] at h
        dsimp only at h
        injection h with h
        exact hsv squeezed (image_format.getD "JPEG") (by rw [hs2, h])
      | ok bytes =>
        rw [hs2] at h
        dsimp only at h
        cases h
  · intro h
    unfold _encode_image
    rw [if_pos h]

/-- Witness for encode_image_shape_error_iff at a rank-2 grid, where the
shape ValueError is raised. -/
theorem encode_image_shape_error_iff_witness :
    (_encode_image wSave { shape := [2, 2], data := [1, 2, 3, 4] } none none =
        Except.error (PyErr.valueError shapeErrorMsg) ↔
      ([2, 2] : List Nat).length ≠ 3) ∧
    _encode_image wSave { shape := [2, 2], data := [1, 2, 3, 4] } none none =
      Except.error (PyErr.valueError shapeErrorMsg) :=
  ⟨encode_image_shape_error_iff wSave { shape := [2, 2], data := [1, 2, 3, 4] }
      none none (fun _ _ h => by cases h),
    (encode_image_shape_error_iff wSave { shape := [2, 2], data := [1, 2, 3, 4] }
      none none (fun _ _ h => by cases h)).mpr (by decide)⟩

/-- C6: a grayscale grid of shape (height, width, 1) passes the rank
check, its trailing singleton dimension is dropped by the reshape to
shape[:-1], the underlying codec is handed the resulting 2-dimensional
grid, and — the codec accepting that 2-D grid — the encode completes
successfully with the encoded bytes in a fresh rewound buffer. -/
theorem encode_image_grayscale
    (pil_save : NDArray → String → Except PyErr (List Nat))
    (hgt wdt : Nat) (data : List Nat) (image_format : Option String)
    (bytes : List Nat)
    (hsv : pil_save { shape := [hgt, wdt], data := data }
        (image_format.getD "JPEG") = Except.ok bytes) :
    reshape { shape := [hgt, wdt, 1], data := data }
        (([hgt, wdt, 1] : List Nat).dropLast) =
      Except.ok { shape := [hgt, wdt], data := data } ∧
    ({ shape := [hgt, wdt], data := data } : NDArray).shape.length = 2 ∧
    _encode_image pil_save { shape := [hgt, wdt, 1], data := data }
        image_format none =
      Except.ok { data := bytes, pos := 0 } := by
  have hre : reshape { shape := [hgt, wdt, 1], data := data }
      (([hgt, wdt, 1] : List Nat).dropLast) =
      Except.ok { shape := [hgt, wdt], data := data } := by
    unfold reshape
    rw [if_pos (by simp)]
    rfl
  refine ⟨hre, rfl, ?_⟩
  unfold _encode_image
  rw [if_neg (by simp : ¬([hgt, wdt, 1] : List Nat).length ≠ 3)]
  dsimp only
  rw [if_pos (by rfl : ([hgt, wdt, 1] : List Nat).getLast? = some 1)]
  rw [hre]
  dsimp only
  rw [hsv]
  dsimp only [Buffer.write, Buffer.seek0]
  simp

/-- Witness for encode_image_grayscale at a concrete 2-by-2 grayscale
grid. -/
theorem encode_image_grayscale_witness :
    reshape { shape := [2, 2, 1], data := [1, 2, 3, 4] }
        (([2, 2, 1] : List Nat).dropLast) =
      Except.ok { shape := [2, 2], data := [1, 2, 3, 4] } ∧
    ({ shape := [2, 2], data := [1, 2, 3, 4] } : NDArray).shape.length = 2 ∧
    _encode_image wSave { shape := [2, 2, 1], data := [1, 2, 3, 4] } none none =
      Except.ok { data := [255, 216], pos := 0 } :=
  encode_image_grayscale wSave 2 2 [1, 2, 3, 4] none [255, 216] rfl

lemma encode_image_ok (pil_save : NDArray → String → Except PyErr (List Nat))
    (image : NDArray) (image_format : Option String) (fobj : Option Buffer)
    (h3 : image.shape.length = 3)
    (hsv : ∀ i f, ∃ bs, pil_save i f = Except.ok bs) :
    ∃ bytes, _encode_image pil_save image image_format fobj =
      Except.ok
        (Buffer.seek0 ((fobj.getD { data := [], pos := 0 }).write bytes)) := by
  unfold _encode_image
  rw [if_neg (by omega : ¬image.shape.length ≠ 3)]
  dsimp only
  by_cases h1 : image.shape.getLast? = some 1
  · rw [if_pos h1]
    have hre : reshape image image.shape.dropLast =
        Except.ok { shape := image.shape.dropLast, data := image.data } := by
      unfold reshape
      rw [if_pos (prod_dropLast_of_getLast_one image.shape h1)]
    rw [hre]
    dsimp only
    obtain ⟨bs, hbs⟩ := hsv { shape := image.shape.dropLast, data := image.data }
      (image_format.getD "JPEG")
    rw [hbs]
    exact ⟨bs, rfl⟩
  · rw [if_neg h1]
    dsimp only
    obtain ⟨bs, hbs⟩ := hsv image (image_format.getD "JPEG")
    rw [hbs]
    exact ⟨bs, rfl⟩

/-- C9: for a rank-3 grid, when the external codec encodes successfully,
_encode_image returns a buffer rewound to position 0: with no supplied
buffer it allocates and returns a fresh buffer holding exactly the encoded
bytes; with a supplied buffer it writes the encoded bytes into that buffer
at its cursor and returns it with the cursor reset to 0. -/
theorem encode_image_returns_rewound_buffer
    (pil_save : NDArray → String → Except PyErr (List Nat))
    (image : NDArray) (image_format : Option String)
    (h3 : image.shape.length = 3)
    (hsv : ∀ i f, ∃ bs, pil_save i f = Except.ok bs) :
    (∃ bytes, _encode_image pil_save image image_format none =
      Except.ok { data := bytes, pos := 0 }) ∧
    (∀ b : Buffer, ∃ bytes,
      _encode_image pil_save image image_format (some b) =
        Except.ok (Buffer.seek0 (b.write bytes)) ∧
      (Buffer.seek0 (b.write bytes)).pos = 0) := by
  constructor
  · obtain ⟨bytes, hb⟩ := encode_image_ok pil_save image image_format none h3 hsv
    refine ⟨bytes, ?_⟩
    rw [hb]
    dsimp only [Option.getD, Buffer.write, Buffer.seek0]
    simp
  · intro b
    obtain ⟨bytes, hb⟩ := encode_image_ok pil_save image image_format (some b) h3 hsv
    exact ⟨bytes, hb, rfl⟩

/-- Witness for encode_image_returns_rewound_buffer at a concrete 1-by-1
RGB grid. -/
theorem encode_image_returns_rewound_buffer_witness :
    (∃ bytes, _encode_image wSave { shape := [1, 1, 3], data := [1, 2, 3] }
        none none = Except.ok { data := bytes, pos := 0 }) ∧
    (∀ b : Buffer, ∃ bytes,
      _encode_image wSave { shape := [1, 1, 3], data := [1, 2, 3] }
          none (some b) =
        Except.ok (Buffer.seek0 (b.write bytes)) ∧
      (Buffer.seek0 (b.write bytes)).pos = 0) :=
  encode_image_returns_rewound_buffer wSave
    { shape := [1, 1, 3], data := [1, 2, 3] } none (by decide)
    (fun _ _ => ⟨[255, 216], rfl⟩)
